import Mathlib

/-!
Verification of the post lifecycle engine of the Food Rescue @ Campus app
(`app.py`).  The persisted CSV table is modelled as a list of `StoredRow`
(raw cells: timestamps may be absent, unparseable text, or a parsed
instant; quantities likewise).  `load_data` parses every row and applies
the expiry policy `_expire_row` to the status column, as the source does
with `df.apply`; `save_data` writes the in-memory rows back.  The four
lifecycle operations (`create_post`, `claim_post`, `_complete_post`,
`_update_status`/`cancel_post`) follow the source line by line: each loads
the table, locates the first row whose `id` matches, checks its
precondition against that row's effective status, updates every row with
the matching `id`, and saves the whole loaded table.  Timestamps are
modelled as integers on a single clock basis; the random code generator is
modelled by passing the generated code as an explicit argument.
-/

namespace FoodRescue

def STATUS_OPEN : String := "open"
def STATUS_CLAIMED : String := "claimed"
def STATUS_COMPLETED : String := "completed"
def STATUS_EXPIRED : String := "expired"

/-- A raw timestamp cell of the CSV table: empty, unparseable text, or a
parsed instant.  `pd.to_datetime(..., errors="coerce")` sends the first
two to `NaT`. -/
inductive TsCell where
  | absent : TsCell
  | bad : String → TsCell
  | good : Int → TsCell
deriving DecidableEq, Repr

/-- A raw quantity cell: empty, unparseable text, or a number.
`pd.to_numeric(..., errors="coerce").fillna(0)` sends the first two to 0. -/
inductive QtyCell where
  | blank : QtyCell
  | bad : String → QtyCell
  | num : Int → QtyCell
deriving DecidableEq, Repr

/-- One persisted CSV row, columns exactly as in `surplus.csv`. -/
structure StoredRow where
  id : String
  created_at_iso : TsCell
  donor_name : String
  donor_phone : String
  food_desc : String
  qty_meals : QtyCell
  veg_type : String
  allergens : String
  address : String
  ready_until_iso : TsCell
  ready_until_hhmm : String
  status : String
  claimer_name : String
  claimer_phone : String
  donor_code : String
  volunteer_code : String
  completed_at_iso : TsCell
deriving DecidableEq, Repr

/-- One in-memory row as produced by `load_data`: timestamps parsed
(absent/unparseable become `none`), quantity normalized to an integer. -/
structure Row where
  id : String
  created_at : Option Int
  donor_name : String
  donor_phone : String
  food_desc : String
  qty_meals : Int
  veg_type : String
  allergens : String
  address : String
  ready_until : Option Int
  ready_until_hhmm : String
  status : String
  claimer_name : String
  claimer_phone : String
  donor_code : String
  volunteer_code : String
  completed_at : Option Int
deriving DecidableEq, Repr

/-- `pd.to_datetime(c, errors="coerce")`: unparseable text and empty cells
become `NaT`, modelled as `none`. -/
def parseTs : TsCell → Option Int
  | .absent => none
  | .bad _ => none
  | .good t => some t

/-- `pd.to_numeric(c, errors="coerce").fillna(0).astype(int)`. -/
def parseQty : QtyCell → Int
  | .blank => 0
  | .bad _ => 0
  | .num n => n

def parseRow (sr : StoredRow) : Row :=
  { id := sr.id
    created_at := parseTs sr.created_at_iso
    donor_name := sr.donor_name
    donor_phone := sr.donor_phone
    food_desc := sr.food_desc
    qty_meals := parseQty sr.qty_meals
    veg_type := sr.veg_type
    allergens := sr.allergens
    address := sr.address
    ready_until := parseTs sr.ready_until_iso
    ready_until_hhmm := sr.ready_until_hhmm
    status := sr.status
    claimer_name := sr.claimer_name
    claimer_phone := sr.claimer_phone
    donor_code := sr.donor_code
    volunteer_code := sr.volunteer_code
    completed_at := parseTs sr.completed_at_iso }

def dumpTs : Option Int → TsCell
  | none => .absent
  | some t => .good t

def dumpRow (r : Row) : StoredRow :=
  { id := r.id
    created_at_iso := dumpTs r.created_at
    donor_name := r.donor_name
    donor_phone := r.donor_phone
    food_desc := r.food_desc
    qty_meals := .num r.qty_meals
    veg_type := r.veg_type
    allergens := r.allergens
    address := r.address
    ready_until_iso := dumpTs r.ready_until
    ready_until_hhmm := r.ready_until_hhmm
    status := r.status
    claimer_name := r.claimer_name
    claimer_phone := r.claimer_phone
    donor_code := r.donor_code
    volunteer_code := r.volunteer_code
    completed_at_iso := dumpTs r.completed_at }

/-- The expiry policy `_expire_row` of `load_data`: with no deadline the
stored status passes through; an Open or Claimed row whose deadline is
strictly before `now` reads as Expired; everything else passes through. -/
def _expire_row (now : Int) (r : Row) : String :=
  match r.ready_until with
  | none => r.status
  | some ru =>
    if (r.status = STATUS_OPEN ∨ r.status = STATUS_CLAIMED) ∧ ru < now then STATUS_EXPIRED
    else r.status

/-- `df["status"] = df.apply(_expire_row, axis=1)` on one row. -/
def applyExpiry (now : Int) (r : Row) : Row :=
  { r with status := _expire_row now r }

/-- `load_data`: parse every row, then overwrite the status column with the
expiry policy's result. -/
def load_data (now : Int) (store : List StoredRow) : List Row :=
  store.map (fun sr => applyExpiry now (parseRow sr))

/-- `save_data`: serialize every in-memory row back to the CSV table. -/
def save_data (rows : List Row) : List StoredRow :=
  rows.map dumpRow

/-- Effective status of a persisted row at time `now`, as any read
computes it. -/
def effStatusOf (now : Int) (sr : StoredRow) : String :=
  _expire_row now (parseRow sr)

/-- Outcome of the claim handler (`volunteer_find_claim_page`).
`invalidState` carries the actual current status shown in the error
message; `ok` carries the generated volunteer code shown to the caller. -/
inductive ClaimOutcome where
  | notFound : ClaimOutcome
  | invalidState : String → ClaimOutcome
  | ok : String → ClaimOutcome
deriving DecidableEq, Repr

def ClaimOutcome.isOk : ClaimOutcome → Bool
  | .ok _ => true
  | _ => false

/-- The claim handler of `volunteer_find_claim_page`: load, look up the
first row with the given id, require its (effective) status to be Open,
then set status/claimer identity/volunteer code on every row with that id
and save the whole table.  `vcode` stands for the freshly generated
`gen_code()`. -/
def claim_post (now : Int) (store : List StoredRow) (post_id nm ph vcode : String) :
    ClaimOutcome × List StoredRow :=
  match (load_data now store).find? (fun r => r.id == post_id) with
  | none => (.notFound, store)
  | some row =>
    if row.status ≠ STATUS_OPEN then (.invalidState row.status, store)
    else
      (.ok vcode, save_data ((load_data now store).map (fun r =>
        if r.id == post_id then
          { r with status := STATUS_CLAIMED, claimer_name := nm, claimer_phone := ph,
                   volunteer_code := vcode }
        else r)))

/-- Whitespace characters removed by Python's `str.strip()` (the ones that
can occur in a form field or CSV cell). -/
def isSpaceChar (c : Char) : Bool :=
  c == ' ' || c == '\t' || c == '\n' || c == '\r'

/-- Python's `str.strip()`: drop leading and trailing whitespace. -/
def pyStrip (s : String) : String :=
  String.mk (((s.data.dropWhile isSpaceChar).reverse.dropWhile isSpaceChar).reverse)

/-- Outcome of `_complete_post`. -/
inductive CompleteOutcome where
  | notFound : CompleteOutcome
  | invalidState : String → CompleteOutcome
  | codeMismatch : CompleteOutcome
  | ok : CompleteOutcome
deriving DecidableEq, Repr

def CompleteOutcome.isOk : CompleteOutcome → Bool
  | .ok => true
  | _ => false

/-- `_complete_post(post_id, other_party_code, actor)`: requires the first
matching row's effective status to be Claimed; the expected code is
`donor_code` when `actor == "volunteer"` and `volunteer_code` otherwise;
both the presented and the expected code are whitespace-stripped before
the exact string comparison; on success sets status Completed and stamps
`completed_at` with the current time on every row with that id, then
saves. -/
def _complete_post (now : Int) (store : List StoredRow)
    (post_id other_party_code actor : String) :
    CompleteOutcome × List StoredRow :=
  match (load_data now store).find? (fun r => r.id == post_id) with
  | none => (.notFound, store)
  | some row =>
    if row.status ≠ STATUS_CLAIMED then (.invalidState row.status, store)
    else
      if pyStrip other_party_code ≠
          pyStrip (if actor = "volunteer" then row.donor_code else row.volunteer_code) then
        (.codeMismatch, store)
      else
        (.ok, save_data ((load_data now store).map (fun r =>
          if r.id == post_id then
            { r with status := STATUS_COMPLETED, completed_at := some now }
          else r)))

/-- Outcome of `_update_status`; `invalidState` carries the actual and the
required status, both shown in the error message. -/
inductive UpdateOutcome where
  | notFound : UpdateOutcome
  | invalidState : String → String → UpdateOutcome
  | ok : UpdateOutcome
deriving DecidableEq, Repr

def UpdateOutcome.isOk : UpdateOutcome → Bool
  | .ok => true
  | _ => false

/-- `_update_status(post_id, required_status, new_status, allow_any_status)`:
requires the first matching row's effective status to equal
`required_status` (unless `allow_any_status`), sets the new status on every
row with that id — additionally stamping `ready_until` with the current
time when the new status is Expired — and saves. -/
def _update_status (now : Int) (store : List StoredRow)
    (post_id required_status new_status : String) (allow_any_status : Bool) :
    UpdateOutcome × List StoredRow :=
  match (load_data now store).find? (fun r => r.id == post_id) with
  | none => (.notFound, store)
  | some row =>
    if ¬allow_any_status ∧ row.status ≠ required_status then
      (.invalidState row.status required_status, store)
    else
      (.ok, save_data ((load_data now store).map (fun r =>
        if r.id == post_id then
          if new_status = STATUS_EXPIRED then
            { r with status := new_status, ready_until := some now }
          else { r with status := new_status }
        else r)))

/-- The donor page's cancel action:
`_update_status(target_id, STATUS_OPEN, STATUS_EXPIRED, allow_any_status=False)`. -/
def cancel_post (now : Int) (store : List StoredRow) (post_id : String) :
    UpdateOutcome × List StoredRow :=
  _update_status now store post_id STATUS_OPEN STATUS_EXPIRED false

/-- The creation form's fields, together with the generated id and donor
code (`new_id()` / `gen_code()` modelled as explicit inputs). -/
structure CreateArgs where
  id : String
  donor_name : String
  donor_phone : String
  food_desc : String
  qty_meals : Int
  veg_type : String
  allergens : String
  address : String
  ready_until : Int
  ready_until_hhmm : String
  donor_code : String
deriving DecidableEq, Repr

/-- `donor_post_page`'s submit handler: load, append the new Open post
with empty claimer fields and volunteer code, and save the whole table. -/
def create_post (now : Int) (store : List StoredRow) (a : CreateArgs) :
    List StoredRow :=
  save_data (load_data now store ++
    [{ id := a.id
       created_at := some now
       donor_name := a.donor_name
       donor_phone := a.donor_phone
       food_desc := a.food_desc
       qty_meals := a.qty_meals
       veg_type := a.veg_type
       allergens := a.allergens
       address := a.address
       ready_until := some a.ready_until
       ready_until_hhmm := a.ready_until_hhmm
       status := STATUS_OPEN
       claimer_name := ""
       claimer_phone := ""
       donor_code := a.donor_code
       volunteer_code := ""
       completed_at := none }])

/-- A lifecycle operation together with the wall-clock time at which it
runs and the values its random generators produce. -/
inductive Op where
  | create : Int → CreateArgs → Op
  | claim : Int → String → String → String → String → Op
  | complete : Int → String → String → String → Op
  | cancel : Int → String → Op
deriving DecidableEq, Repr

def opTime : Op → Int
  | .create t _ => t
  | .claim t _ _ _ _ => t
  | .complete t _ _ _ => t
  | .cancel t _ => t

/-- Whether `pid` is the post id the operation addresses. -/
def opTargets : Op → String → Prop
  | .create _ _, _ => False
  | .claim _ pid _ _ _, x => pid = x
  | .complete _ pid _ _, x => pid = x
  | .cancel _ pid, x => pid = x

/-- Effect of one operation on the persisted table (result message
discarded). -/
def applyOp : Op → List StoredRow → List StoredRow
  | .create t a, s => create_post t s a
  | .claim t pid nm ph vc, s => (claim_post t s pid nm ph vc).2
  | .complete t pid code actor, s => (_complete_post t s pid code actor).2
  | .cancel t pid, s => (cancel_post t s pid).2

def exec (ops : List Op) (s : List StoredRow) : List StoredRow :=
  ops.foldl (fun s op => applyOp op s) s

/-- `dashboard_page`'s meals-saved figure:
`df[df["status"] == STATUS_COMPLETED]["qty_meals"].sum()` over the loaded
table. -/
def dashboard_completed_meals (now : Int) (store : List StoredRow) : Int :=
  (((load_data now store).filter (fun r => r.status == STATUS_COMPLETED)).map
    Row.qty_meals).sum

/-- The spec's description of the figure: the sum of `qty_meals` over
exactly the posts whose effective status is Completed, as a pure fold over
the current records. -/
def completed_meals_of_records (now : Int) (store : List StoredRow) : Int :=
  (store.map (fun sr =>
    if effStatusOf now sr = STATUS_COMPLETED then (parseRow sr).qty_meals else 0)).sum

/-- One step of the spec's status order: stay put, Open → Claimed,
Claimed → Completed, or Open|Claimed → Expired. -/
def statusStep (a b : String) : Prop :=
  a = b ∨
  (a = STATUS_OPEN ∧ b = STATUS_CLAIMED) ∨
  (a = STATUS_CLAIMED ∧ b = STATUS_COMPLETED) ∨
  ((a = STATUS_OPEN ∨ a = STATUS_CLAIMED) ∧ b = STATUS_EXPIRED)

instance (a b : String) : Decidable (statusStep a b) := by
  unfold statusStep; infer_instance

theorem parseTs_dumpTs (o : Option Int) : parseTs (dumpTs o) = o := by
  cases o <;> rfl

theorem parseRow_dumpRow (r : Row) : parseRow (dumpRow r) = r := by
  cases r
  simp [parseRow, dumpRow, parseTs_dumpTs, parseQty]

theorem load_data_save_data (now : Int) (rows : List Row) :
    load_data now (save_data rows) = rows.map (applyExpiry now) := by
  simp [load_data, save_data, List.map_map, Function.comp_def, parseRow_dumpRow]

theorem id_applyExpiry_parseRow (now : Int) (sr : StoredRow) :
    (applyExpiry now (parseRow sr)).id = sr.id := rfl

theorem load_data_ids (now : Int) (store : List StoredRow) :
    (load_data now store).map Row.id = store.map StoredRow.id := by
  simp [load_data, List.map_map]
  intro a _
  rfl

theorem status_applyExpiry (now : Int) (r : Row) :
    (applyExpiry now r).status = _expire_row now r := rfl

theorem expire_row_cases (now : Int) (r : Row) :
    _expire_row now r = r.status ∨
    ((r.status = STATUS_OPEN ∨ r.status = STATUS_CLAIMED) ∧
      _expire_row now r = STATUS_EXPIRED) := by
  unfold _expire_row
  cases r.ready_until with
  | none => exact Or.inl rfl
  | some ru =>
    by_cases h : (r.status = STATUS_OPEN ∨ r.status = STATUS_CLAIMED) ∧ ru < now
    · exact Or.inr ⟨h.1, by simp [h]⟩
    · exact Or.inl (by simp [h])

theorem expire_row_of_completed (now : Int) (r : Row)
    (h : r.status = STATUS_COMPLETED) : _expire_row now r = STATUS_COMPLETED := by
  unfold _expire_row
  cases r.ready_until with
  | none => exact h
  | some ru => simp [h, STATUS_COMPLETED, STATUS_OPEN, STATUS_CLAIMED]

theorem expire_row_of_expired (now : Int) (r : Row)
    (h : r.status = STATUS_EXPIRED) : _expire_row now r = STATUS_EXPIRED := by
  unfold _expire_row
  cases r.ready_until with
  | none => exact h
  | some ru => simp [h, STATUS_EXPIRED, STATUS_OPEN, STATUS_CLAIMED]

theorem completed_of_expire_row (now : Int) (r : Row)
    (h : _expire_row now r = STATUS_COMPLETED) : r.status = STATUS_COMPLETED := by
  rcases expire_row_cases now r with hc | ⟨_, hc⟩
  · rw [← hc, h]
  · rw [hc] at h
    exact absurd h (by decide)

theorem open_of_expire_row (now : Int) (r : Row)
    (h : _expire_row now r = STATUS_OPEN) : r.status = STATUS_OPEN := by
  rcases expire_row_cases now r with hc | ⟨_, hc⟩
  · rw [← hc, h]
  · rw [hc] at h
    exact absurd h (by decide)

theorem claimed_of_expire_row (now : Int) (r : Row)
    (h : _expire_row now r = STATUS_CLAIMED) : r.status = STATUS_CLAIMED := by
  rcases expire_row_cases now r with hc | ⟨_, hc⟩
  · rw [← hc, h]
  · rw [hc] at h
    exact absurd h (by decide)

theorem expire_row_persists (t t' : Int) (h : t ≤ t') (r : Row)
    (hr : _expire_row t r = STATUS_EXPIRED) : _expire_row t' r = STATUS_EXPIRED := by
  unfold _expire_row at hr ⊢
  cases hru : r.ready_until with
  | none => rw [hru] at hr; exact hr
  | some ru =>
    rw [hru] at hr
    by_cases hc : (r.status = STATUS_OPEN ∨ r.status = STATUS_CLAIMED) ∧ ru < t
    · have : (r.status = STATUS_OPEN ∨ r.status = STATUS_CLAIMED) ∧ ru < t' :=
        ⟨hc.1, lt_of_lt_of_le hc.2 h⟩
      simp [this]
    · simp only [if_neg hc] at hr
      simp [hr, STATUS_EXPIRED, STATUS_OPEN, STATUS_CLAIMED]

theorem ready_until_applyExpiry (now : Int) (r : Row) :
    (applyExpiry now r).ready_until = r.ready_until := rfl

/-- Locate the row `find?` returned: with pairwise-distinct ids, any
position whose id matches is the found row. -/
theorem find_row_at_of_nodup (df : List Row) (pid : String)
    (hn : (df.map Row.id).Nodup) (row : Row)
    (hf : df.find? (fun r => r.id == pid) = some row)
    (i : Nat) (h : i < df.length) (hid : (df.get ⟨i, h⟩).id = pid) :
    df.get ⟨i, h⟩ = row := by
  have hmem : row ∈ df := List.mem_of_find?_eq_some hf
  have hrowid : row.id = pid := by
    have := List.find?_some hf
    simpa using this
  obtain ⟨j, hj⟩ := List.mem_iff_get.mp hmem
  have hlen : df.length = (df.map Row.id).length := (List.length_map df Row.id).symm
  have hgi : (df.map Row.id).get ⟨i, by omega⟩ = pid := by
    rw [List.get_map]
    exact hid
  have hgj : (df.map Row.id).get ⟨j.val, by omega⟩ = pid := by
    rw [List.get_map]
    have := congrArg Row.id hj
    simpa [hrowid] using this
  have hij : (⟨i, by omega⟩ : Fin (df.map Row.id).length) = ⟨j.val, by omega⟩ :=
    hn.get_inj_iff.mp (hgi.trans hgj.symm)
  have : i = j.val := congrArg Fin.val hij
  rw [← hj]
  congr 1
  exact Fin.ext this

theorem claim_post_of_none (now : Int) (store : List StoredRow) (pid nm ph vc : String)
    (hf : (load_data now store).find? (fun r => r.id == pid) = none) :
    claim_post now store pid nm ph vc = (.notFound, store) := by
  unfold claim_post
  rw [hf]

theorem claim_post_of_some (now : Int) (store : List StoredRow) (pid nm ph vc : String)
    (row : Row) (hf : (load_data now store).find? (fun r => r.id == pid) = some row) :
    claim_post now store pid nm ph vc =
      if row.status ≠ STATUS_OPEN then (.invalidState row.status, store)
      else
        (.ok vc, save_data ((load_data now store).map (fun r =>
          if r.id == pid then
            { r with status := STATUS_CLAIMED, claimer_name := nm, claimer_phone := ph,
                     volunteer_code := vc }
          else r))) := by
  unfold claim_post
  rw [hf]

theorem complete_post_of_none (now : Int) (store : List StoredRow)
    (pid code actor : String)
    (hf : (load_data now store).find? (fun r => r.id == pid) = none) :
    _complete_post now store pid code actor = (.notFound, store) := by
  unfold _complete_post
  rw [hf]

theorem complete_post_of_some (now : Int) (store : List StoredRow)
    (pid code actor : String) (row : Row)
    (hf : (load_data now store).find? (fun r => r.id == pid) = some row) :
    _complete_post now store pid code actor =
      if row.status ≠ STATUS_CLAIMED then (.invalidState row.status, store)
      else
        if pyStrip code ≠
            pyStrip (if actor = "volunteer" then row.donor_code else row.volunteer_code) then
          (.codeMismatch, store)
        else
          (.ok, save_data ((load_data now store).map (fun r =>
            if r.id == pid then
              { r with status := STATUS_COMPLETED, completed_at := some now }
            else r))) := by
  unfold _complete_post
  rw [hf]

theorem update_status_of_none (now : Int) (store : List StoredRow)
    (pid rs ns : String) (b : Bool)
    (hf : (load_data now store).find? (fun r => r.id == pid) = none) :
    _update_status now store pid rs ns b = (.notFound, store) := by
  unfold _update_status
  rw [hf]

theorem update_status_of_some (now : Int) (store : List StoredRow)
    (pid rs ns : String) (b : Bool) (row : Row)
    (hf : (load_data now store).find? (fun r => r.id == pid) = some row) :
    _update_status now store pid rs ns b =
      if ¬b ∧ row.status ≠ rs then (.invalidState row.status rs, store)
      else
        (.ok, save_data ((load_data now store).map (fun r =>
          if r.id == pid then
            if ns = STATUS_EXPIRED then { r with status := ns, ready_until := some now }
            else { r with status := ns }
          else r))) := by
  unfold _update_status
  rw [hf]

/-- A concrete Open post whose deadline (time 10) has not lapsed at the
times the witnesses use. -/
def demoOpen : StoredRow :=
  { id := "A"
    created_at_iso := .good 0
    donor_name := "dn"
    donor_phone := "1234567"
    food_desc := "rice"
    qty_meals := QtyCell.num 10
    veg_type := "Veg"
    allergens := ""
    address := "hall"
    ready_until_iso := .good 10
    ready_until_hhmm := "00:10"
    status := STATUS_OPEN
    claimer_name := ""
    claimer_phone := ""
    donor_code := "1234"
    volunteer_code := ""
    completed_at_iso := .absent }

/-- A concrete Open post whose deadline (time 0) has already lapsed. -/
def demoLapsed : StoredRow :=
  { demoOpen with id := "L", ready_until_iso := .good 0 }

/-- A concrete Claimed post with both handover codes set. -/
def demoClaimed : StoredRow :=
  { demoOpen with
    id := "C", status := STATUS_CLAIMED, claimer_name := "vol",
    claimer_phone := "7654321", volunteer_code := "5678" }

/-- A concrete post whose deadline cell is unparseable text. -/
def demoBadTs : StoredRow :=
  { demoOpen with id := "BAD", ready_until_iso := .bad "not-a-date" }

/-- C3: `_expire_row` returns the stored status unchanged when the
deadline is absent; returns Expired when the stored status is Open or
Claimed and the deadline is strictly before `now`; returns the stored
status unchanged in every other case; and `load_data` applies it to every
post of the table. -/
theorem effective_status_policy (r : Row) (now : Int) :
    (r.ready_until = none → _expire_row now r = r.status) ∧
    (∀ ru : Int, r.ready_until = some ru →
      ((r.status = STATUS_OPEN ∨ r.status = STATUS_CLAIMED) → ru < now →
        _expire_row now r = STATUS_EXPIRED) ∧
      (¬((r.status = STATUS_OPEN ∨ r.status = STATUS_CLAIMED) ∧ ru < now) →
        _expire_row now r = r.status)) ∧
    (∀ store : List StoredRow,
      load_data now store = store.map (fun sr => applyExpiry now (parseRow sr))) := by
  refine ⟨?_, ?_, fun _ => rfl⟩
  · intro h
    simp only [_expire_row, h]
  · intro ru h
    constructor
    · intro hs hlt
      simp only [_expire_row, h]
      rw [if_pos ⟨hs, hlt⟩]
    · intro hns
      simp only [_expire_row, h]
      rw [if_neg hns]

/-- Witness for C3 at concrete posts: a lapsed Open post reads Expired,
a not-yet-lapsed Open post reads unchanged. -/
theorem effective_status_policy_witness :
    _expire_row 5 (parseRow demoLapsed) = STATUS_EXPIRED ∧
    _expire_row 5 (parseRow demoOpen) = (parseRow demoOpen).status := by
  constructor
  · exact ((effective_status_policy (parseRow demoLapsed) 5).2.1 0 (by decide)).1
      (by decide) (by decide)
  · exact ((effective_status_policy (parseRow demoOpen) 5).2.1 10 (by decide)).2
      (by decide)

/-- C5: writing a collection of posts via `save_data` and reading it back
via `load_data` reproduces every field of every post exactly, except that
the status field additionally reflects freshly computed expiry at the time
of the read. -/
theorem save_load_round_trip (rows : List Row) (now : Int) :
    load_data now (save_data rows) =
      rows.map (fun r => { r with status := _expire_row now r }) :=
  load_data_save_data now rows

/-- C9: an unparseable timestamp cell parses to an absent value rather
than an error, and a post whose deadline is absent is exempt from expiry:
every read returns its stored status unchanged regardless of the current
time. -/
theorem lenient_timestamp_handling (sr : StoredRow) (s : String) :
    (sr.ready_until_iso = TsCell.bad s → (parseRow sr).ready_until = none) ∧
    (sr.created_at_iso = TsCell.bad s → (parseRow sr).created_at = none) ∧
    (sr.completed_at_iso = TsCell.bad s → (parseRow sr).completed_at = none) ∧
    ((parseRow sr).ready_until = none →
      ∀ now : Int, (applyExpiry now (parseRow sr)).status = sr.status) := by
  refine ⟨?_, ?_, ?_, ?_⟩
  · intro h
    simp [parseRow, h, parseTs]
  · intro h
    simp [parseRow, h, parseTs]
  · intro h
    simp [parseRow, h, parseTs]
  · intro h now
    rw [status_applyExpiry]
    simp only [_expire_row, h]
    rfl

/-- Witness for C9: a post whose deadline cell holds unparseable text is
loaded with an absent deadline and keeps its stored status far in the
future. -/
theorem lenient_timestamp_handling_witness :
    (parseRow demoBadTs).ready_until = none ∧
    (applyExpiry 999999 (parseRow demoBadTs)).status = demoBadTs.status := by
  have h1 := (lenient_timestamp_handling demoBadTs "not-a-date").1 (by decide)
  exact ⟨h1, (lenient_timestamp_handling demoBadTs "not-a-date").2.2.2 h1 999999⟩

/-- C10: a failing Claim, Complete or Cancel performs no save: the
persisted collection is returned exactly as it was before the attempt. -/
theorem failed_ops_leave_store_unchanged (now : Int) (store : List StoredRow)
    (pid nm ph vc code actor : String) :
    ((claim_post now store pid nm ph vc).1.isOk = false →
      (claim_post now store pid nm ph vc).2 = store) ∧
    ((_complete_post now store pid code actor).1.isOk = false →
      (_complete_post now store pid code actor).2 = store) ∧
    ((cancel_post now store pid).1.isOk = false →
      (cancel_post now store pid).2 = store) := by
  refine ⟨?_, ?_, ?_⟩
  · cases hf : (load_data now store).find? (fun r => r.id == pid) with
    | none => rw [claim_post_of_none now store pid nm ph vc hf]; intro; rfl
    | some row =>
      rw [claim_post_of_some now store pid nm ph vc row hf]
      by_cases hs : row.status ≠ STATUS_OPEN
      · rw [if_pos hs]; intro; rfl
      · rw [if_neg hs]; intro hok; exact absurd hok (by simp [ClaimOutcome.isOk])
  · cases hf : (load_data now store).find? (fun r => r.id == pid) with
    | none => rw [complete_post_of_none now store pid code actor hf]; intro; rfl
    | some row =>
      rw [complete_post_of_some now store pid code actor row hf]
      by_cases hs : row.status ≠ STATUS_CLAIMED
      · rw [if_pos hs]; intro; rfl
      · rw [if_neg hs]
        by_cases hc : pyStrip code ≠
            pyStrip (if actor = "volunteer" then row.donor_code else row.volunteer_code)
        · rw [if_pos hc]; intro; rfl
        · rw [if_neg hc]; intro hok; exact absurd hok (by simp [CompleteOutcome.isOk])
  · unfold cancel_post
    cases hf : (load_data now store).find? (fun r => r.id == pid) with
    | none => rw [update_status_of_none now store pid STATUS_OPEN STATUS_EXPIRED false hf]
              intro; rfl
    | some row =>
      rw [update_status_of_some now store pid STATUS_OPEN STATUS_EXPIRED false row hf]
      by_cases hs : ¬false = true ∧ row.status ≠ STATUS_OPEN
      · rw [if_pos hs]; intro; rfl
      · rw [if_neg hs]; intro hok; exact absurd hok (by simp [UpdateOutcome.isOk])

/-- Witness for C10: on the empty table every lifecycle operation fails
with NotFound and returns the table unchanged. -/
theorem failed_ops_leave_store_unchanged_witness :
    (claim_post 0 [] "x" "n" "p" "1").2 = [] ∧
    (_complete_post 0 [] "x" "1" "volunteer").2 = [] ∧
    (cancel_post 0 [] "x").2 = [] := by
  refine ⟨?_, ?_, ?_⟩
  · exact (failed_ops_leave_store_unchanged 0 [] "x" "n" "p" "1" "1" "volunteer").1
      (by decide)
  · exact (failed_ops_leave_store_unchanged 0 [] "x" "n" "p" "1" "1" "volunteer").2.1
      (by decide)
  · exact (failed_ops_leave_store_unchanged 0 [] "x" "n" "p" "1" "1" "volunteer").2.2
      (by decide)

/-- C1: on a completion attempt that reaches the code check (the post is
found and its effective status is Claimed), the expected code is
`donor_code` when the actor is the volunteer and `volunteer_code` when the
actor is the donor; the attempt fails with CodeMismatch exactly when the
presented code, after stripping whitespace, is not string-equal to the
expected code; and on success the post's status becomes Completed and
`completed_at` is stamped with the current time.  The hypothesis `hexp`
records that the stored expected code carries no surrounding whitespace,
which holds for every code `gen_code()` produces (digit strings). -/
theorem complete_code_verification (now : Int) (store : List StoredRow)
    (pid code actor : String) (row : Row)
    (hfind : (load_data now store).find? (fun r => r.id == pid) = some row)
    (hclaimed : row.status = STATUS_CLAIMED)
    (hexp : pyStrip (if actor = "volunteer" then row.donor_code else row.volunteer_code) =
      (if actor = "volunteer" then row.donor_code else row.volunteer_code)) :
    (actor = "volunteer" →
      (if actor = "volunteer" then row.donor_code else row.volunteer_code) =
        row.donor_code) ∧
    (actor = "donor" →
      (if actor = "volunteer" then row.donor_code else row.volunteer_code) =
        row.volunteer_code) ∧
    ((_complete_post now store pid code actor).1 = CompleteOutcome.codeMismatch ↔
      pyStrip code ≠ (if actor = "volunteer" then row.donor_code else row.volunteer_code)) ∧
    (pyStrip code = (if actor = "volunteer" then row.donor_code else row.volunteer_code) →
      (_complete_post now store pid code actor).1 = CompleteOutcome.ok ∧
      ∀ (i : Nat) (r : Row), (load_data now store)[i]? = some r → r.id = pid →
        (_complete_post now store pid code actor).2[i]? =
          some (dumpRow { r with status := STATUS_COMPLETED, completed_at := some now })) := by
  have hrw := complete_post_of_some now store pid code actor row hfind
  rw [if_neg (by simp [hclaimed])] at hrw
  refine ⟨fun h => by rw [if_pos h], fun h => ?_, ?_, ?_⟩
  · rw [h] at hexp ⊢
    rw [if_neg (by decide)]
  · constructor
    · intro hmm
      rw [hrw] at hmm
      by_cases hc : pyStrip code ≠
          pyStrip (if actor = "volunteer" then row.donor_code else row.volunteer_code)
      · rw [hexp] at hc
        exact hc
      · rw [if_neg hc] at hmm
        exact CompleteOutcome.noConfusion hmm
    · intro hne
      rw [hrw, if_pos (by rw [hexp]; exact hne)]
  · intro heq
    have hc : ¬(pyStrip code ≠
        pyStrip (if actor = "volunteer" then row.donor_code else row.volunteer_code)) := by
      rw [hexp]
      exact fun hn => hn heq
    rw [hrw, if_neg hc]
    refine ⟨rfl, ?_⟩
    intro i r hr hid
    have hb : (r.id == pid) = true := beq_iff_eq.mpr hid
    simp only [save_data, List.getElem?_map, hr, Option.map_some']
    rw [if_pos hb]

/-- Witness for C1 on a concrete claimed post: the volunteer presenting
the donor's code (with surrounding blanks) completes it, and the
volunteer presenting the wrong code gets CodeMismatch. -/
theorem complete_code_verification_witness :
    (_complete_post 5 [demoClaimed] "C" " 1234 " "volunteer").1 = CompleteOutcome.ok ∧
    ((_complete_post 5 [demoClaimed] "C" "5678" "volunteer").1 =
      CompleteOutcome.codeMismatch ↔ pyStrip "5678" ≠ "1234") := by
  constructor
  · have h := complete_code_verification 5 [demoClaimed] "C" " 1234 " "volunteer"
      (applyExpiry 5 (parseRow demoClaimed)) (by decide) (by decide) (by decide)
    exact (h.2.2.2 (by decide)).1
  · have h := complete_code_verification 5 [demoClaimed] "C" "5678" "volunteer"
      (applyExpiry 5 (parseRow demoClaimed)) (by decide) (by decide) (by decide)
    have h3 := h.2.2.1
    simpa using h3

/-- C7: Cancel succeeds only when the post's effective status is Open —
cancelling a Claimed or Completed (or already Expired) post fails with
InvalidState carrying the actual status — and on success it persists
status Expired with `ready_until` stamped to the current time. -/
theorem cancel_post_correct (now : Int) (store : List StoredRow) (pid : String) :
    ((load_data now store).find? (fun r => r.id == pid) = none →
      cancel_post now store pid = (.notFound, store)) ∧
    (∀ row : Row, (load_data now store).find? (fun r => r.id == pid) = some row →
      (row.status ≠ STATUS_OPEN →
        cancel_post now store pid = (.invalidState row.status STATUS_OPEN, store)) ∧
      (row.status = STATUS_OPEN →
        (cancel_post now store pid).1 = UpdateOutcome.ok ∧
        ∀ (i : Nat) (r : Row), (load_data now store)[i]? = some r → r.id = pid →
          (cancel_post now store pid).2[i]? =
            some (dumpRow
              { r with status := STATUS_EXPIRED, ready_until := some now }))) := by
  constructor
  · intro hf
    unfold cancel_post
    exact update_status_of_none now store pid STATUS_OPEN STATUS_EXPIRED false hf
  · intro row hf
    have hrw := update_status_of_some now store pid STATUS_OPEN STATUS_EXPIRED false row hf
    constructor
    · intro hns
      unfold cancel_post
      rw [hrw, if_pos ⟨by simp, hns⟩]
    · intro hsopen
      unfold cancel_post
      rw [hrw, if_neg (by simp [hsopen])]
      refine ⟨rfl, ?_⟩
      intro i r hr hid
      have hb : (r.id == pid) = true := beq_iff_eq.mpr hid
      simp only [save_data, List.getElem?_map, hr, Option.map_some']
      rw [if_pos hb]
      simp

/-- Witness for C7 on concrete posts: cancelling the Open post succeeds
and persists Expired with the cancellation time as deadline; cancelling
the Claimed post fails with InvalidState. -/
theorem cancel_post_correct_witness :
    (cancel_post 5 [demoOpen] "A").1 = UpdateOutcome.ok ∧
    (cancel_post 5 [demoOpen] "A").2[0]? =
      some (dumpRow { applyExpiry 5 (parseRow demoOpen) with
                      status := STATUS_EXPIRED, ready_until := some 5 }) ∧
    cancel_post 5 [demoClaimed] "C" =
      (.invalidState STATUS_CLAIMED STATUS_OPEN, [demoClaimed]) := by
  have h := (cancel_post_correct 5 [demoOpen] "A").2
    (applyExpiry 5 (parseRow demoOpen)) (by decide)
  have h2 := h.2 (by decide)
  refine ⟨h2.1, h2.2 0 (applyExpiry 5 (parseRow demoOpen)) (by decide) (by decide), ?_⟩
  have hc := ((cancel_post_correct 5 [demoClaimed] "C").2
    (applyExpiry 5 (parseRow demoClaimed)) (by decide)).1 (by decide)
  exact hc

/-- C6: Claim fails with NotFound when no post has the id; fails with
InvalidState carrying the actual effective status when that status is not
Open — in particular a second claim on a just-claimed post fails — and on
success records the claimer identity, stores the freshly generated
volunteer code, persists, and returns that code to the caller. -/
theorem claim_post_correct (now : Int) (store : List StoredRow)
    (pid nm ph vc : String) :
    ((load_data now store).find? (fun r => r.id == pid) = none →
      claim_post now store pid nm ph vc = (.notFound, store)) ∧
    (∀ row : Row, (load_data now store).find? (fun r => r.id == pid) = some row →
      (row.status ≠ STATUS_OPEN →
        claim_post now store pid nm ph vc = (.invalidState row.status, store)) ∧
      (row.status = STATUS_OPEN →
        (claim_post now store pid nm ph vc).1 = ClaimOutcome.ok vc ∧
        (∀ (i : Nat) (r : Row), (load_data now store)[i]? = some r → r.id = pid →
          (claim_post now store pid nm ph vc).2[i]? =
            some (dumpRow
              { r with
                status := STATUS_CLAIMED
                claimer_name := nm
                claimer_phone := ph
                volunteer_code := vc })) ∧
        (∀ (now2 : Int) (nm2 ph2 vc2 : String), ∃ s : String, s ≠ STATUS_OPEN ∧
          (claim_post now2 (claim_post now store pid nm ph vc).2 pid nm2 ph2 vc2).1 =
            ClaimOutcome.invalidState s))) := by
  constructor
  · intro hf
    exact claim_post_of_none now store pid nm ph vc hf
  · intro row hf
    have hrw := claim_post_of_some now store pid nm ph vc row hf
    constructor
    · intro hns
      rw [hrw, if_pos hns]
    · intro hsopen
      rw [if_neg (by simp [hsopen])] at hrw
      have hsnd : (claim_post now store pid nm ph vc).2 =
          save_data ((load_data now store).map (fun r =>
            if r.id == pid then
              { r with status := STATUS_CLAIMED, claimer_name := nm, claimer_phone := ph,
                       volunteer_code := vc }
            else r)) := by
        rw [hrw]
      refine ⟨by rw [hrw], ?_, ?_⟩
      · intro i r hr hid
        have hb : (r.id == pid) = true := beq_iff_eq.mpr hid
        rw [hsnd]
        simp only [save_data, List.getElem?_map, hr, Option.map_some']
        rw [if_pos hb]
      · intro now2 nm2 ph2 vc2
        obtain ⟨row2, hrow2⟩ : ∃ row2 : Row, row2 = ({ row with status := STATUS_CLAIMED, claimer_name := nm, claimer_phone := ph, volunteer_code := vc } : Row) := ⟨_, rfl⟩
        have hload : load_data now2 (claim_post now store pid nm ph vc).2 = ((load_data now store).map (fun r : Row => if r.id == pid then ({ r with status := STATUS_CLAIMED, claimer_name := nm, claimer_phone := ph, volunteer_code := vc } : Row) else r)).map (applyExpiry now2) := by
          rw [hsnd]
          exact load_data_save_data now2 _
        have hrowid : (row.id == pid) = true := by
          have := List.find?_some hf
          simpa using this
        have hurow : (fun r : Row => if r.id == pid then ({ r with status := STATUS_CLAIMED, claimer_name := nm, claimer_phone := ph, volunteer_code := vc } : Row) else r) row = row2 := by
          rw [hrow2]
          simp only [if_pos hrowid]
        have hfind2 : (load_data now2 (claim_post now store pid nm ph vc).2).find? (fun r => r.id == pid) = some (applyExpiry now2 row2) := by
          rw [hload, List.find?_map, List.find?_map]
          have hpe : ((fun r : Row => r.id == pid) ∘ applyExpiry now2) ∘ (fun r : Row => if r.id == pid then ({ r with status := STATUS_CLAIMED, claimer_name := nm, claimer_phone := ph, volunteer_code := vc } : Row) else r) = fun r : Row => r.id == pid := by
            funext r
            simp only [Function.comp_apply]
            by_cases h : (r.id == pid) = true
            · rw [if_pos h]
              rfl
            · rw [if_neg h]
              rfl
          rw [hpe, hf]
          simp only [Option.map_some', hurow]
        have hstat : row2.status = STATUS_CLAIMED := by
          rw [hrow2]
        have hterm : _expire_row now2 row2 ≠ STATUS_OPEN := by
          rcases expire_row_cases now2 row2 with hc | ⟨_, hc⟩
          · rw [hc, hstat]
            decide
          · rw [hc]
            decide
        refine ⟨_expire_row now2 row2, hterm, ?_⟩
        have hro := claim_post_of_some now2 (claim_post now store pid nm ph vc).2 pid nm2 ph2 vc2 _ hfind2
        rw [hro, if_pos ?_]
        · rw [status_applyExpiry]
        · rw [status_applyExpiry]
          exact hterm

/-- Witness for C6: claiming the Open post returns the fresh code, and a
second claim on the same post fails with InvalidState. -/
theorem claim_post_correct_witness :
    (claim_post 5 [demoOpen] "A" "vol" "7654321" "4242").1 = ClaimOutcome.ok "4242" ∧
    ∃ s : String, s ≠ STATUS_OPEN ∧
      (claim_post 6 (claim_post 5 [demoOpen] "A" "vol" "7654321" "4242").2
        "A" "v2" "1111111" "9999").1 = ClaimOutcome.invalidState s := by
  have h := (claim_post_correct 5 [demoOpen] "A" "vol" "7654321" "4242").2
    (applyExpiry 5 (parseRow demoOpen)) (by decide)
  have h2 := h.2 (by decide)
  exact ⟨h2.1, h2.2.2 6 "v2" "1111111" "9999"⟩

theorem filter_sum_eq_if_sum (rows : List Row) :
    ((rows.filter (fun r => r.status == STATUS_COMPLETED)).map Row.qty_meals).sum =
      (rows.map (fun r => if r.status = STATUS_COMPLETED then r.qty_meals else 0)).sum := by
  induction rows with
  | nil => rfl
  | cons r rest ih =>
    rw [List.filter_cons]
    split
    · rename_i hcond
      rw [List.map_cons, List.sum_cons, List.map_cons, List.sum_cons, ih,
        if_pos (beq_iff_eq.mp hcond)]
    · rename_i hcond
      rw [List.map_cons, List.sum_cons, ih, if_neg (by simpa using hcond)]
      omega

theorem dashboard_eq_fold (now : Int) (store : List StoredRow) :
    dashboard_completed_meals now store = completed_meals_of_records now store := by
  have h := filter_sum_eq_if_sum (load_data now store)
  rw [dashboard_completed_meals, h, completed_meals_of_records, load_data, List.map_map]
  rfl

/-- C8: after any sequence of lifecycle operations, the dashboard's
completed-meals figure — the sum of `qty_meals` over the loaded rows whose
status reads Completed — equals the sum of `qty_meals` over exactly the
stored posts whose effective status is Completed, recomputed as a pure
fold over the current records. -/
theorem dashboard_completed_meals_correct (ops : List Op) (now : Int) :
    dashboard_completed_meals now (exec ops []) =
      completed_meals_of_records now (exec ops []) :=
  dashboard_eq_fold now (exec ops [])

instance (op : Op) (x : String) : Decidable (opTargets op x) := by
  cases op <;> (unfold opTargets; infer_instance)

/-- C4 fails on the code: a successful claim on post "A" persists the
freshly computed Expired status for the unrelated lapsed post "L" —
because the whole loaded table, with expiry already applied to the status
column, is saved back.  Before the claim, "L" is stored as Open with a
lapsed deadline; afterwards it is stored as Expired although no cancel
ever ran. -/
theorem expiry_persisted_by_claim_counterexample :
    demoLapsed.status = STATUS_OPEN ∧
    (claim_post 5 [demoLapsed, demoOpen] "A" "vol" "7654321" "4242").1 =
      ClaimOutcome.ok "4242" ∧
    ((claim_post 5 [demoLapsed, demoOpen] "A" "vol" "7654321" "4242").2.map
      StoredRow.status) = [STATUS_EXPIRED, STATUS_CLAIMED] := by
  decide

/-- Whether the operation's handler reached its save: `create` always
saves; the other handlers save exactly when they report success. -/
def opSucceeded : Op → List StoredRow → Bool
  | .create _ _, _ => true
  | .claim t pid nm ph vc, s => (claim_post t s pid nm ph vc).1.isOk
  | .complete t pid code actor, s => (_complete_post t s pid code actor).1.isOk
  | .cancel t pid, s => (cancel_post t s pid).1.isOk

/-- C4 amended: reading alone never writes the store (`load_data` is
pure); a lifecycle operation whose handler fails saves nothing, leaving
every stored row — target or not — exactly as it was; and a lifecycle
operation whose handler succeeds overwrites every non-target row with
exactly its freshly loaded, expiry-applied image, whose stored status is
the computed effective status — so every successful lifecycle operation,
not only the explicit cancel, persists the computed Expired status of
every lapsed Open/Claimed post. -/
theorem expiry_persistence_on_writes (op : Op) (store : List StoredRow)
    (i : Nat) (sr : StoredRow) (hsr : store[i]? = some sr) :
    (opSucceeded op store = false → (applyOp op store)[i]? = some sr) ∧
    (opSucceeded op store = true → ¬opTargets op sr.id →
      (applyOp op store)[i]? =
        some (dumpRow (applyExpiry (opTime op) (parseRow sr))) ∧
      (dumpRow (applyExpiry (opTime op) (parseRow sr))).status =
        effStatusOf (opTime op) sr) := by
  have hlen : i < store.length := by
    rcases List.getElem?_eq_some.mp hsr with ⟨h, _⟩
    exact h
  cases op with
  | create t a =>
    simp only [applyOp, opTime, opSucceeded, opTargets]
    refine ⟨fun hfail => absurd hfail (by simp), fun _ _ => ⟨?_, rfl⟩⟩
    simp only [create_post, save_data, List.getElem?_map]
    rw [List.getElem?_append_left (by simpa [load_data] using hlen)]
    simp only [load_data, List.getElem?_map, hsr, Option.map_some']
  | claim t pid nm ph vc =>
    simp only [applyOp, opTime, opSucceeded, opTargets]
    cases hf : (load_data t store).find? (fun r => r.id == pid) with
    | none =>
      rw [claim_post_of_none t store pid nm ph vc hf]
      exact ⟨fun _ => hsr, fun hsucc => absurd hsucc (by simp [ClaimOutcome.isOk])⟩
    | some row =>
      have hrw := claim_post_of_some t store pid nm ph vc row hf
      by_cases hst : row.status ≠ STATUS_OPEN
      · rw [hrw, if_pos hst]
        exact ⟨fun _ => hsr, fun hsucc => absurd hsucc (by simp [ClaimOutcome.isOk])⟩
      · rw [hrw, if_neg hst]
        refine ⟨fun hfail => absurd hfail (by simp [ClaimOutcome.isOk]),
          fun _ hnt => ⟨?_, rfl⟩⟩
        have hbid : ((applyExpiry t (parseRow sr)).id == pid) = false := by
          have hi : (applyExpiry t (parseRow sr)).id = sr.id := rfl
          rw [hi]
          exact beq_eq_false_iff_ne.mpr fun h => hnt h.symm
        simp only [save_data, List.getElem?_map, load_data, hsr, Option.map_some']
        rw [if_neg (by simp [hbid])]
  | complete t pid code actor =>
    simp only [applyOp, opTime, opSucceeded, opTargets]
    cases hf : (load_data t store).find? (fun r => r.id == pid) with
    | none =>
      rw [complete_post_of_none t store pid code actor hf]
      exact ⟨fun _ => hsr, fun hsucc => absurd hsucc (by simp [CompleteOutcome.isOk])⟩
    | some row =>
      have hrw := complete_post_of_some t store pid code actor row hf
      by_cases hst : row.status ≠ STATUS_CLAIMED
      · rw [hrw, if_pos hst]
        exact ⟨fun _ => hsr, fun hsucc => absurd hsucc (by simp [CompleteOutcome.isOk])⟩
      · rw [hrw, if_neg hst]
        by_cases hc : pyStrip code ≠
            pyStrip (if actor = "volunteer" then row.donor_code else row.volunteer_code)
        · rw [if_pos hc]
          exact ⟨fun _ => hsr, fun hsucc => absurd hsucc (by simp [CompleteOutcome.isOk])⟩
        · rw [if_neg hc]
          refine ⟨fun hfail => absurd hfail (by simp [CompleteOutcome.isOk]),
            fun _ hnt => ⟨?_, rfl⟩⟩
          have hbid : ((applyExpiry t (parseRow sr)).id == pid) = false := by
            have hi : (applyExpiry t (parseRow sr)).id = sr.id := rfl
            rw [hi]
            exact beq_eq_false_iff_ne.mpr fun h => hnt h.symm
          simp only [save_data, List.getElem?_map, load_data, hsr, Option.map_some']
          rw [if_neg (by simp [hbid])]
  | cancel t pid =>
    simp only [applyOp, cancel_post, opTime, opSucceeded, opTargets]
    cases hf : (load_data t store).find? (fun r => r.id == pid) with
    | none =>
      rw [update_status_of_none t store pid STATUS_OPEN STATUS_EXPIRED false hf]
      exact ⟨fun _ => hsr, fun hsucc => absurd hsucc (by simp [UpdateOutcome.isOk])⟩
    | some row =>
      have hrw := update_status_of_some t store pid STATUS_OPEN STATUS_EXPIRED false row hf
      by_cases hst : row.status ≠ STATUS_OPEN
      · rw [hrw, if_pos ⟨by simp, hst⟩]
        exact ⟨fun _ => hsr, fun hsucc => absurd hsucc (by simp [UpdateOutcome.isOk])⟩
      · rw [hrw, if_neg (by simp [hst])]
        refine ⟨fun hfail => absurd hfail (by simp [UpdateOutcome.isOk]),
          fun _ hnt => ⟨?_, rfl⟩⟩
        have hbid : ((applyExpiry t (parseRow sr)).id == pid) = false := by
          have hi : (applyExpiry t (parseRow sr)).id = sr.id := rfl
          rw [hi]
          exact beq_eq_false_iff_ne.mpr fun h => hnt h.symm
        simp only [save_data, List.getElem?_map, load_data, hsr, Option.map_some']
        rw [if_neg (by simp [hbid])]

/-- Witness for the amended C4: the successful claim targeting post "A"
persists the unrelated lapsed post "L" in its expiry-applied image — its
stored status becomes Expired — while the failing claim on the unknown id
"X" leaves "L" untouched. -/
theorem expiry_persistence_on_writes_witness :
    (applyOp (Op.claim 5 "A" "vol" "7654321" "4242") [demoLapsed, demoOpen])[0]? =
      some (dumpRow (applyExpiry (opTime (Op.claim 5 "A" "vol" "7654321" "4242"))
        (parseRow demoLapsed))) ∧
    (dumpRow (applyExpiry 5 (parseRow demoLapsed))).status = STATUS_EXPIRED ∧
    (applyOp (Op.claim 5 "X" "vol" "7654321" "4242") [demoLapsed, demoOpen])[0]? =
      some demoLapsed := by
  have hs := (expiry_persistence_on_writes (Op.claim 5 "A" "vol" "7654321" "4242")
    [demoLapsed, demoOpen] 0 demoLapsed (by decide)).2 (by decide) (by decide)
  have hf := (expiry_persistence_on_writes (Op.claim 5 "X" "vol" "7654321" "4242")
    [demoLapsed, demoOpen] 0 demoLapsed (by decide)).1 (by decide)
  refine ⟨hs.1, ?_, hf⟩
  rw [show (dumpRow (applyExpiry 5 (parseRow demoLapsed))).status =
    effStatusOf 5 demoLapsed from hs.2]
  decide

/-- A post whose effective status is terminal keeps that effective status
at any later time, even without a write. -/
theorem terminal_eff_persists (t t' : Int) (h : t ≤ t') (sr : StoredRow)
    (hterm : effStatusOf t sr = STATUS_COMPLETED ∨ effStatusOf t sr = STATUS_EXPIRED) :
    effStatusOf t' sr = effStatusOf t sr := by
  rcases hterm with h1 | h1
  · rw [h1]
    unfold effStatusOf at h1 ⊢
    exact expire_row_of_completed t' _ (completed_of_expire_row t _ h1)
  · rw [h1]
    unfold effStatusOf at h1 ⊢
    exact expire_row_persists t t' h _ h1

/-- Once a terminal effective status is persisted (the row written back in
its loaded, expiry-applied form), every later read still computes it. -/
theorem terminal_eff_persists_dump (t t' : Int) (sr : StoredRow)
    (hterm : effStatusOf t sr = STATUS_COMPLETED ∨ effStatusOf t sr = STATUS_EXPIRED) :
    effStatusOf t' (dumpRow (applyExpiry t (parseRow sr))) = effStatusOf t sr := by
  unfold effStatusOf
  rw [parseRow_dumpRow]
  have hst : (applyExpiry t (parseRow sr)).status = _expire_row t (parseRow sr) := rfl
  rcases hterm with h1 | h1
  · unfold effStatusOf at h1
    rw [h1]
    exact expire_row_of_completed t' _ (by rw [hst, h1])
  · unfold effStatusOf at h1
    rw [h1]
    exact expire_row_of_expired t' _ (by rw [hst, h1])

/-- Persisting the loaded, expiry-applied image of a row moves its stored
status by at most one edge of the spec's order. -/
theorem statusStep_expire (t : Int) (sr : StoredRow) :
    statusStep sr.status (dumpRow (applyExpiry t (parseRow sr))).status := by
  have hst : (dumpRow (applyExpiry t (parseRow sr))).status =
      _expire_row t (parseRow sr) := rfl
  rw [hst]
  rcases expire_row_cases t (parseRow sr) with hc | ⟨hs, hc⟩
  · rw [hc]
    exact Or.inl rfl
  · rw [hc]
    exact Or.inr (Or.inr (Or.inr ⟨hs, rfl⟩))

/-- With pairwise-distinct ids, the row `find?` returned is the loaded
image of the stored row at any position whose id matches. -/
theorem find_row_at_idx (now : Int) (store : List StoredRow) (pid : String)
    (hids : (store.map StoredRow.id).Nodup) (row : Row)
    (hf : (load_data now store).find? (fun r => r.id == pid) = some row)
    (i : Nat) (sr : StoredRow) (hsr : store[i]? = some sr) (hid : sr.id = pid) :
    applyExpiry now (parseRow sr) = row := by
  have hn : ((load_data now store).map Row.id).Nodup := by
    rw [load_data_ids]
    exact hids
  have hdf : (load_data now store)[i]? = some (applyExpiry now (parseRow sr)) := by
    simp [load_data, List.getElem?_map, hsr]
  obtain ⟨h, hval⟩ := List.getElem?_eq_some.mp hdf
  have hgid : ((load_data now store).get ⟨i, h⟩).id = pid := by
    rw [List.get_eq_getElem, hval]
    exact hid
  have hout := find_row_at_of_nodup (load_data now store) pid hn row hf i h hgid
  rw [List.get_eq_getElem, hval] at hout
  exact hout

/-- C2: along any lifecycle operation, the stored status of every
pre-existing post moves by at most one edge of the spec's order
(Open → Claimed → Completed, Open|Claimed → Expired), and a post whose
effective status at the operation's time is Completed or Expired keeps
exactly that effective status at every later time — no operation moves a
post out of a terminal state, and reads (`load_data`) are pure and write
nothing.  Ids are assumed pairwise distinct, as the data model's unique-id
invariant guarantees. -/
theorem status_transitions_monotonic (op : Op) (store : List StoredRow)
    (hids : (store.map StoredRow.id).Nodup)
    (i : Nat) (sr : StoredRow) (hsr : store[i]? = some sr) :
    ∃ sr' : StoredRow, (applyOp op store)[i]? = some sr' ∧
      statusStep sr.status sr'.status ∧
      ∀ t' : Int, opTime op ≤ t' →
        (effStatusOf (opTime op) sr = STATUS_COMPLETED ∨
          effStatusOf (opTime op) sr = STATUS_EXPIRED) →
        effStatusOf t' sr' = effStatusOf (opTime op) sr := by
  have hlen : i < store.length := by
    rcases List.getElem?_eq_some.mp hsr with ⟨h, _⟩
    exact h
  cases op with
  | create t a =>
    refine ⟨dumpRow (applyExpiry t (parseRow sr)), ?_, statusStep_expire t sr,
      fun t' _ hterm => terminal_eff_persists_dump t t' sr hterm⟩
    simp only [applyOp, create_post, save_data, List.getElem?_map]
    rw [List.getElem?_append_left (by simpa [load_data] using hlen)]
    simp only [load_data, List.getElem?_map, hsr, Option.map_some']
  | claim t pid nm ph vc =>
    simp only [applyOp, opTime]
    cases hf : (load_data t store).find? (fun r => r.id == pid) with
    | none =>
      rw [claim_post_of_none t store pid nm ph vc hf]
      exact ⟨sr, hsr, Or.inl rfl, fun t' ht' hterm => terminal_eff_persists t t' ht' sr hterm⟩
    | some row =>
      have hrw := claim_post_of_some t store pid nm ph vc row hf
      by_cases hst : row.status ≠ STATUS_OPEN
      · rw [hrw, if_pos hst]
        exact ⟨sr, hsr, Or.inl rfl, fun t' ht' hterm => terminal_eff_persists t t' ht' sr hterm⟩
      · push_neg at hst
        rw [hrw, if_neg (by simp [hst])]
        by_cases hid : sr.id = pid
        · have hrow := find_row_at_idx t store pid hids row hf i sr hsr hid
          have heff : _expire_row t (parseRow sr) = row.status := congrArg Row.status hrow
          have hso : sr.status = STATUS_OPEN :=
            open_of_expire_row t (parseRow sr) (heff.trans hst)
          refine ⟨dumpRow { row with status := STATUS_CLAIMED, claimer_name := nm, claimer_phone := ph, volunteer_code := vc }, ?_, ?_, ?_⟩
          · simp only [save_data, List.getElem?_map, load_data, hsr, Option.map_some']
            rw [hrow, if_pos (beq_iff_eq.mpr (hrow ▸ (show (applyExpiry t
              (parseRow sr)).id = pid from hid)))]
          · exact Or.inr (Or.inl ⟨hso, rfl⟩)
          · intro t' ht' hterm
            exfalso
            unfold effStatusOf at hterm
            rw [heff, hst] at hterm
            rcases hterm with h1 | h1
            · exact absurd h1 (by decide)
            · exact absurd h1 (by decide)
        · refine ⟨dumpRow (applyExpiry t (parseRow sr)), ?_, statusStep_expire t sr,
            fun t' _ hterm => terminal_eff_persists_dump t t' sr hterm⟩
          simp only [save_data, List.getElem?_map, load_data, hsr, Option.map_some']
          rw [if_neg (by simp [show (applyExpiry t (parseRow sr)).id = sr.id from rfl, hid])]
  | complete t pid code actor =>
    simp only [applyOp, opTime]
    cases hf : (load_data t store).find? (fun r => r.id == pid) with
    | none =>
      rw [complete_post_of_none t store pid code actor hf]
      exact ⟨sr, hsr, Or.inl rfl, fun t' ht' hterm => terminal_eff_persists t t' ht' sr hterm⟩
    | some row =>
      have hrw := complete_post_of_some t store pid code actor row hf
      by_cases hst : row.status ≠ STATUS_CLAIMED
      · rw [hrw, if_pos hst]
        exact ⟨sr, hsr, Or.inl rfl, fun t' ht' hterm => terminal_eff_persists t t' ht' sr hterm⟩
      · push_neg at hst
        rw [hrw, if_neg (by simp [hst])]
        by_cases hc : pyStrip code ≠
            pyStrip (if actor = "volunteer" then row.donor_code else row.volunteer_code)
        · rw [if_pos hc]
          exact ⟨sr, hsr, Or.inl rfl, fun t' ht' hterm => terminal_eff_persists t t' ht' sr hterm⟩
        · rw [if_neg hc]
          by_cases hid : sr.id = pid
          · have hrow := find_row_at_idx t store pid hids row hf i sr hsr hid
            have heff : _expire_row t (parseRow sr) = row.status := congrArg Row.status hrow
            have hso : sr.status = STATUS_CLAIMED :=
              claimed_of_expire_row t (parseRow sr) (heff.trans hst)
            refine ⟨dumpRow { row with status := STATUS_COMPLETED, completed_at := some t }, ?_, ?_, ?_⟩
            · simp only [save_data, List.getElem?_map, load_data, hsr, Option.map_some']
              rw [hrow, if_pos (beq_iff_eq.mpr (hrow ▸ (show (applyExpiry t
                (parseRow sr)).id = pid from hid)))]
            · exact Or.inr (Or.inr (Or.inl ⟨hso, rfl⟩))
            · intro t' ht' hterm
              exfalso
              unfold effStatusOf at hterm
              rw [heff, hst] at hterm
              rcases hterm with h1 | h1
              · exact absurd h1 (by decide)
              · exact absurd h1 (by decide)
          · refine ⟨dumpRow (applyExpiry t (parseRow sr)), ?_, statusStep_expire t sr,
              fun t' _ hterm => terminal_eff_persists_dump t t' sr hterm⟩
            simp only [save_data, List.getElem?_map, load_data, hsr, Option.map_some']
            rw [if_neg (by simp [show (applyExpiry t (parseRow sr)).id = sr.id from rfl, hid])]
  | cancel t pid =>
    simp only [applyOp, cancel_post, opTime]
    cases hf : (load_data t store).find? (fun r => r.id == pid) with
    | none =>
      rw [update_status_of_none t store pid STATUS_OPEN STATUS_EXPIRED false hf]
      exact ⟨sr, hsr, Or.inl rfl, fun t' ht' hterm => terminal_eff_persists t t' ht' sr hterm⟩
    | some row =>
      have hrw := update_status_of_some t store pid STATUS_OPEN STATUS_EXPIRED false row hf
      by_cases hst : row.status ≠ STATUS_OPEN
      · rw [hrw, if_pos ⟨by simp, hst⟩]
        exact ⟨sr, hsr, Or.inl rfl, fun t' ht' hterm => terminal_eff_persists t t' ht' sr hterm⟩
      · push_neg at hst
        rw [hrw, if_neg (by simp [hst])]
        by_cases hid : sr.id = pid
        · have hrow := find_row_at_idx t store pid hids row hf i sr hsr hid
          have heff : _expire_row t (parseRow sr) = row.status := congrArg Row.status hrow
          have hso : sr.status = STATUS_OPEN :=
            open_of_expire_row t (parseRow sr) (heff.trans hst)
          refine ⟨dumpRow { row with status := STATUS_EXPIRED, ready_until := some t }, ?_, ?_, ?_⟩
          · simp only [save_data, List.getElem?_map, load_data, hsr, Option.map_some']
            rw [hrow, if_pos (beq_iff_eq.mpr (hrow ▸ (show (applyExpiry t
              (parseRow sr)).id = pid from hid)))]
            simp
          · exact Or.inr (Or.inr (Or.inr ⟨Or.inl hso, rfl⟩))
          · intro t' ht' hterm
            exfalso
            unfold effStatusOf at hterm
            rw [heff, hst] at hterm
            rcases hterm with h1 | h1
            · exact absurd h1 (by decide)
            · exact absurd h1 (by decide)
        · refine ⟨dumpRow (applyExpiry t (parseRow sr)), ?_, statusStep_expire t sr,
            fun t' _ hterm => terminal_eff_persists_dump t t' sr hterm⟩
          simp only [save_data, List.getElem?_map, load_data, hsr, Option.map_some']
          rw [if_neg (by simp [show (applyExpiry t (parseRow sr)).id = sr.id from rfl, hid])]

/-- Witness for C2 on a concrete table: a claim on "A" moves it
Open → Claimed while the lapsed "L" is persisted Open → Expired, both
single edges of the spec's order. -/
theorem status_transitions_monotonic_witness :
    ∃ sr' : StoredRow,
      (applyOp (Op.claim 5 "A" "vol" "7654321" "4242") [demoLapsed, demoOpen])[1]? =
        some sr' ∧
      statusStep demoOpen.status sr'.status ∧
      ∀ t' : Int, opTime (Op.claim 5 "A" "vol" "7654321" "4242") ≤ t' →
        (effStatusOf (opTime (Op.claim 5 "A" "vol" "7654321" "4242")) demoOpen =
            STATUS_COMPLETED ∨
          effStatusOf (opTime (Op.claim 5 "A" "vol" "7654321" "4242")) demoOpen =
            STATUS_EXPIRED) →
        effStatusOf t' sr' =
          effStatusOf (opTime (Op.claim 5 "A" "vol" "7654321" "4242")) demoOpen :=
  status_transitions_monotonic (Op.claim 5 "A" "vol" "7654321" "4242")
    [demoLapsed, demoOpen] (by decide) 1 demoOpen (by decide)

end FoodRescue
